import Mathlib

/-!
Shallow embedding of the outfit-analysis backend route
(`src/backend/src/routes/outfit-analysis.ts`) and of the client-side
upload preparation (`src/app/camera.tsx`, `analyzeOutfit`).

The route handler is a single async function whose external effects are
the multipart file intake, one structured-generation call (classifier),
one text-to-image call (synthesizer), two storage operations (upload and
getSignedUrl) and a logger.  We model one request as a pure function of
an environment that pre-supplies each external call's outcome, and we
return alongside the HTTP response a trace recording which external
calls the handler actually performed and what it logged.
-/

namespace OutfitApp

/-- The closed category enumeration from `outfitAnalysisSchema`
(`z.enum(['Sport', 'Casual', 'Professional', 'Chill'])`). -/
inductive Category : Type
  | Sport
  | Casual
  | Professional
  | Chill
deriving DecidableEq, Repr

/-- The literal string of a category, exactly as in the zod enum. -/
def Category.name : Category → String
  | .Sport => "Sport"
  | .Casual => "Casual"
  | .Professional => "Professional"
  | .Chill => "Chill"

/-- Structured classifier output conforming to `outfitAnalysisSchema`:
the enum category plus two free-text string fields. -/
structure Analysis where
  category : Category
  explanation : String
  confidence : String
deriving DecidableEq, Repr

/-- One generated file asset as consumed by the handler: its declared
media type (`f.mediaType` may be absent, hence the optional access
`f.mediaType?.startsWith('image/')`) and its byte payload
(`f.uint8Array`, also possibly absent). Bytes are modelled as `List Nat`. -/
structure GeneratedFile where
  mediaType : Option String
  uint8Array : Option (List Nat)
deriving DecidableEq, Repr

/-- Result of the `generateText` synthesizer call: the handler guards
with `generationResult.files && generationResult.files.length > 0`,
so `files` itself may be absent. -/
structure GenerationResult where
  files : Option (List GeneratedFile)
deriving DecidableEq, Repr

/-- The uploaded multipart file as seen by the handler: its original
filename and its raw byte size. -/
structure UploadedFile where
  filename : String
  size : Nat
deriving DecidableEq, Repr

/-- Environment of one request: the outcome each external call would
have if the handler performs it.  Errors carry the thrown message. -/
structure Env where
  file : Option UploadedFile
  classifier : Except String Analysis
  synthesizer : Except String GenerationResult
  uploadResult : Except String Unit
  signedUrl : Except String String
  now : Nat
deriving Repr

/-- JSON body of a response: either the combined success object of the
route or an error object with a single `error` string field. -/
inductive Body
  | success (category explanation confidence suggestionImageUrl : String)
  | failure (error : String)
deriving DecidableEq, Repr

/-- An HTTP response: status code and JSON body. -/
structure Response where
  status : Nat
  body : Body
deriving DecidableEq, Repr

/-- Trace of the external calls one request actually performed. -/
structure Trace where
  classifierCalled : Bool
  synthesizerCalled : Bool
  uploads : List (String × List Nat)
  signedUrlRequests : List String
  logs : List String
deriving DecidableEq, Repr

/-- The trace of a request that performed no external call. -/
def Trace.empty : Trace :=
  { classifierCalled := false
    synthesizerCalled := false
    uploads := []
    signedUrlRequests := []
    logs := [] }

/-- `10 * 1024 * 1024`, the `fileSize` limit passed to `request.file`. -/
def fileSizeLimit : Nat := 10 * 1024 * 1024

/-- JS `s.startsWith(p)`: `p` is a prefix of `s`, on the underlying
character lists. -/
def strStartsWith (s p : String) : Bool :=
  p.data.isPrefixOf s.data

/-- JS `s.toLowerCase()` restricted to its ASCII behaviour, which is
all the handler applies it to: lower-case every character. -/
def strToLower (s : String) : String :=
  String.mk (s.data.map Char.toLower)

/-- The predicate of the extraction scan:
`f.mediaType?.startsWith('image/')` is truthy exactly when the media
type is present and starts with the string `image/`. -/
def isImageFile (f : GeneratedFile) : Bool :=
  match f.mediaType with
  | some m => strStartsWith m "image/"
  | none => false

/-- The per-category descriptive phrase map `categoryDescriptions`. -/
def categoryDescriptions : Category → String
  | .Sport => "athletic wear with performance fabrics, sneakers, and sport accessories for active activities"
  | .Casual => "comfortable everyday outfit with jeans or casual pants, t-shirt or casual top, and comfortable sneakers"
  | .Professional => "business suit or formal dress with polished shoes, subtle accessories, and a clean, professional appearance"
  | .Chill => "relaxed and comfortable loungewear outfit, cozy layers, and casual house shoes for relaxing at home"

/-- The `suggestionPrompt` template literal, interpolating the category
name and its descriptive phrase. -/
def suggestionPrompt (c : Category) : String :=
  "Generate a high-quality fashion illustration of a complete outfit styled for the \"" ++
    c.name ++
    "\" category.\nThe outfit should showcase typical pieces and styling for this category: " ++
    categoryDescriptions c ++
    ".\nCreate a detailed, professional-looking outfit illustration with a person wearing the suggested clothing."

/-- The derived storage key:
`outfit-suggestions/` then `Date.now()` then `-` then
`object.category.toLowerCase()` then `.png`. -/
def storageKey (timestamp : Nat) (c : Category) : String :=
  "outfit-suggestions/" ++ toString timestamp ++ "-" ++ strToLower c.name ++ ".png"

/-- The image-asset extraction of lines 132-137: when `files` is present
and nonempty, find the first file whose media type starts with
`image/`; otherwise there is no candidate. -/
def firstImageFile (gen : GenerationResult) : Option GeneratedFile :=
  match gen.files with
  | some fs => if fs.length > 0 then fs.find? (fun g => isImageFile g) else none
  | none => none

/-- The route handler for `POST /api/analyze-outfit`, as a pure function
of the request environment.  Mirrors the control flow of `register`:
missing file yields 400; a `toBuffer` failure from the size limit yields
413; any error thrown by the classifier, the synthesizer or either
storage call is caught by the outer catch, logged, and turned into the
generic 500 body; otherwise the combined object is returned with
status 200. -/
def handle (env : Env) : Response × Trace :=
  match env.file with
  | none => (⟨400, .failure "No file provided"⟩, Trace.empty)
  | some f =>
    if fileSizeLimit < f.size then
      (⟨413, .failure "File size limit exceeded (max 10MB)"⟩, Trace.empty)
    else
      match env.classifier with
      | .error e =>
        (⟨500, .failure "Failed to analyze outfit image"⟩,
         { classifierCalled := true, synthesizerCalled := false,
           uploads := [], signedUrlRequests := [], logs := [e] })
      | .ok obj =>
        match env.synthesizer with
        | .error e =>
          (⟨500, .failure "Failed to analyze outfit image"⟩,
           { classifierCalled := true, synthesizerCalled := true,
             uploads := [], signedUrlRequests := [], logs := [e] })
        | .ok gen =>
          match firstImageFile gen with
          | none =>
            (⟨200, .success obj.category.name obj.explanation obj.confidence ""⟩,
             { classifierCalled := true, synthesizerCalled := true,
               uploads := [], signedUrlRequests := [], logs := [] })
          | some g =>
            match g.uint8Array with
            | none =>
              (⟨200, .success obj.category.name obj.explanation obj.confidence ""⟩,
               { classifierCalled := true, synthesizerCalled := true,
                 uploads := [], signedUrlRequests := [], logs := [] })
            | some bytes =>
              let key := storageKey env.now obj.category
              match env.uploadResult with
              | .error e =>
                (⟨500, .failure "Failed to analyze outfit image"⟩,
                 { classifierCalled := true, synthesizerCalled := true,
                   uploads := [(key, bytes)], signedUrlRequests := [], logs := [e] })
              | .ok _ =>
                match env.signedUrl with
                | .error e =>
                  (⟨500, .failure "Failed to analyze outfit image"⟩,
                   { classifierCalled := true, synthesizerCalled := true,
                     uploads := [(key, bytes)], signedUrlRequests := [key], logs := [e] })
                | .ok url =>
                  (⟨200, .success obj.category.name obj.explanation obj.confidence url⟩,
                   { classifierCalled := true, synthesizerCalled := true,
                     uploads := [(key, bytes)], signedUrlRequests := [key], logs := [] })

/-- Word character of the JS character class in the client's filename
regex: ASCII letter, digit or underscore. -/
def wordChar (c : Char) : Bool := c.isAlphanum || c = '_'

/-- Extension search on the reversed character list of the filename:
take the longest word-character suffix; it is the captured extension
when it is nonempty and immediately preceded by a dot. -/
def extFromRev (rev : List Char) : Option String :=
  let suf := rev.takeWhile wordChar
  match rev.drop suf.length with
  | c :: _ =>
    if c = '.' then
      if suf.isEmpty then none else some (String.mk suf.reverse)
    else none
  | [] => none

/-- The client-side extension match from `camera.tsx` line 128: the
regex takes a dot followed by one or more word characters reaching the
end of the filename, capturing those word characters. -/
def extensionOf (filename : String) : Option String :=
  extFromRev filename.data.reverse

/-- The MIME type the client attaches to the upload (`camera.tsx` line
129): `image/` plus the matched extension, or `image/jpeg` when the
regex does not match. -/
def derivedMimeType (filename : String) : String :=
  match extensionOf filename with
  | some ext => "image/" ++ ext
  | none => "image/jpeg"

/-- The lowercase form of each category name, written out. -/
def Category.lowerName : Category → String
  | .Sport => "sport"
  | .Casual => "casual"
  | .Professional => "professional"
  | .Chill => "chill"

/-- Opening section of the suggestion prompt, before the category name. -/
def promptPre : String :=
  "Generate a high-quality fashion illustration of a complete outfit styled for the \""

/-- Middle section of the suggestion prompt, between the category name
and the per-category descriptive phrase. -/
def promptMid : String :=
  "\" category.\nThe outfit should showcase typical pieces and styling for this category: "

/-- Closing section of the suggestion prompt, after the descriptive phrase. -/
def promptPost : String :=
  ".\nCreate a detailed, professional-looking outfit illustration with a person wearing the suggested clothing."

/-- C3: a request whose multipart form data yields no file produces
status 400 with body error equal to the string
`No file provided`, and nothing else happens. -/
theorem noFile_400 (env : Env) (h : env.file = none) :
    handle env = (⟨400, .failure "No file provided"⟩, Trace.empty) := by
  unfold handle
  rw [h]

/-- Environment of a request carrying no file. -/
def envNoFile : Env :=
  { file := none
    classifier := .ok ⟨.Casual, "e", "High"⟩
    synthesizer := .ok ⟨none⟩
    uploadResult := .ok ()
    signedUrl := .ok "u"
    now := 0 }

/-- Witness for C3 at a concrete environment. -/
theorem noFile_400_witness :
    envNoFile.file = none ∧
      handle envNoFile = (⟨400, .failure "No file provided"⟩, Trace.empty) :=
  ⟨rfl, noFile_400 envNoFile rfl⟩

/-- C4: a request whose file exceeds 10 * 1024 * 1024 bytes produces
status 413 with body error equal to the string
`File size limit exceeded (max 10MB)`. -/
theorem oversize_413 (env : Env) (f : UploadedFile) (hf : env.file = some f)
    (h : 10 * 1024 * 1024 < f.size) :
    handle env = (⟨413, .failure "File size limit exceeded (max 10MB)"⟩, Trace.empty) := by
  unfold handle
  rw [hf]
  simp only [fileSizeLimit]
  rw [if_pos h]

/-- Environment of a request carrying a file one byte over the limit. -/
def envOversize : Env :=
  { file := some ⟨"big.jpg", 10 * 1024 * 1024 + 1⟩
    classifier := .ok ⟨.Casual, "e", "High"⟩
    synthesizer := .ok ⟨none⟩
    uploadResult := .ok ()
    signedUrl := .ok "u"
    now := 0 }

/-- Witness for C4 at a concrete environment. -/
theorem oversize_413_witness :
    10 * 1024 * 1024 < (10 * 1024 * 1024 + 1 : Nat) ∧
      handle envOversize =
        (⟨413, .failure "File size limit exceeded (max 10MB)"⟩, Trace.empty) :=
  ⟨by omega, oversize_413 envOversize ⟨"big.jpg", 10 * 1024 * 1024 + 1⟩ rfl (by decide)⟩

/-- C6: the derived storage key is exactly the concatenation of
`outfit-suggestions/`, the timestamp, a dash, the lowercased category
name and `.png`, and the derivation is deterministic in the timestamp
and the category. -/
theorem storageKey_deterministic (ts : Nat) (c : Category) :
    storageKey ts c =
      "outfit-suggestions/" ++ toString ts ++ "-" ++ Category.lowerName c ++ ".png" ∧
    ∀ ts' c', ts = ts' → c = c' → storageKey ts c = storageKey ts' c' := by
  constructor
  · cases c <;> rfl
  · intro ts' c' h1 h2
    rw [h1, h2]

/-- Witness for C6 at a concrete timestamp and category. -/
theorem storageKey_deterministic_witness :
    storageKey 1700000000000 .Sport =
      "outfit-suggestions/" ++ toString (1700000000000 : Nat) ++ "-" ++
        Category.lowerName .Sport ++ ".png" ∧
    storageKey 1700000000000 .Sport = storageKey 1700000000000 .Sport :=
  ⟨(storageKey_deterministic 1700000000000 .Sport).1,
   (storageKey_deterministic 1700000000000 .Sport).2 1700000000000 .Sport rfl rfl⟩

/-- C8: a request rejected at the intake boundary — no file, or a file
over the size limit — gets its specific status code and performs no
external call at all: the classifier, the synthesizer, the storage
upload and the URL signing are all left uninvoked. -/
theorem intakeReject_noCalls (env : Env)
    (h : env.file = none ∨ ∃ f, env.file = some f ∧ fileSizeLimit < f.size) :
    ((handle env).1.status = 400 ∨ (handle env).1.status = 413) ∧
      (handle env).2 = Trace.empty := by
  rcases h with h | ⟨f, hf, hbig⟩
  · rw [noFile_400 env h]
    exact ⟨Or.inl rfl, rfl⟩
  · unfold handle
    rw [hf]
    dsimp only
    rw [if_pos hbig]
    exact ⟨Or.inr rfl, rfl⟩

/-- Witness for C8 at a concrete environment. -/
theorem intakeReject_noCalls_witness :
    ((handle envNoFile).1.status = 400 ∨ (handle envNoFile).1.status = 413) ∧
      (handle envNoFile).2 = Trace.empty :=
  intakeReject_noCalls envNoFile (Or.inl rfl)

/-- String concatenation reassociates, via the underlying lists. -/
theorem strAppend_assoc (a b c : String) : a ++ b ++ c = a ++ (b ++ c) :=
  String.ext (List.append_assoc a.data b.data c.data)

/-- The suggestion prompt is the concatenation of its three fixed
sections around the category name and its descriptive phrase. -/
theorem suggestionPrompt_eq (c : Category) :
    suggestionPrompt c =
      promptPre ++ c.name ++ promptMid ++ categoryDescriptions c ++ promptPost := rfl

/-- C9: the per-category description lookup is total over the four
categories with a nonempty descriptive string for each, and the
suggestion prompt for a category contains both the category name and
that description as substrings. -/
theorem categoryLookup_total (c : Category) :
    categoryDescriptions c ≠ "" ∧
    (∃ p q, suggestionPrompt c = p ++ (c.name ++ q)) ∧
    (∃ p q, suggestionPrompt c = p ++ (categoryDescriptions c ++ q)) := by
  refine ⟨?_, ⟨promptPre, promptMid ++ (categoryDescriptions c ++ promptPost), ?_⟩,
    ⟨promptPre ++ (c.name ++ promptMid), promptPost, ?_⟩⟩
  · cases c <;> simp [categoryDescriptions]
  · rw [suggestionPrompt_eq]
    simp only [strAppend_assoc]
  · rw [suggestionPrompt_eq]
    simp only [strAppend_assoc]

/-- C1: every response with status 200 carries a success body whose
category field is one of exactly the four enum literals. -/
theorem ok_category_enum (env : Env) (h : (handle env).1.status = 200) :
    ∃ cat expl conf url, (handle env).1.body = .success cat expl conf url ∧
      (cat = "Sport" ∨ cat = "Casual" ∨ cat = "Professional" ∨ cat = "Chill") := by
  rcases env with ⟨file, cls, syn, up, su, now⟩
  cases file with
  | none => simp [handle] at h
  | some f =>
    by_cases hs : fileSizeLimit < f.size
    · simp [handle, hs] at h
    · rcases cls with e | obj
      · simp [handle, hs] at h
      · rcases syn with e | gen
        · simp [handle, hs] at h
        · have hcat : obj.category.name = "Sport" ∨ obj.category.name = "Casual" ∨
              obj.category.name = "Professional" ∨ obj.category.name = "Chill" := by
            cases obj.category <;> simp [Category.name]
          cases hfi : firstImageFile gen with
          | none =>
            exact ⟨obj.category.name, obj.explanation, obj.confidence, "",
              by simp [handle, hs, hfi], hcat⟩
          | some g =>
            cases hb : g.uint8Array with
            | none =>
              exact ⟨obj.category.name, obj.explanation, obj.confidence, "",
                by simp [handle, hs, hfi, hb], hcat⟩
            | some bytes =>
              rcases up with e | u
              · simp [handle, hs, hfi, hb] at h
              · rcases su with e | url
                · simp [handle, hs, hfi, hb] at h
                · exact ⟨obj.category.name, obj.explanation, obj.confidence, url,
                    by simp [handle, hs, hfi, hb], hcat⟩

/-- Environment of a fully successful request. -/
def envOk : Env :=
  { file := some ⟨"outfit.jpg", 1000⟩
    classifier := .ok ⟨.Sport, "Athletic wear with sneakers.", "High"⟩
    synthesizer := .ok ⟨some [⟨some "image/png", some [1, 2, 3]⟩]⟩
    uploadResult := .ok ()
    signedUrl := .ok "https://example.com/signed.png"
    now := 1700000000000 }

/-- Witness for C1 at a concrete successful environment. -/
theorem ok_category_enum_witness :
    (handle envOk).1.status = 200 ∧
      ∃ cat expl conf url, (handle envOk).1.body = .success cat expl conf url ∧
        (cat = "Sport" ∨ cat = "Casual" ∨ cat = "Professional" ∨ cat = "Chill") :=
  ⟨rfl, ok_category_enum envOk rfl⟩

/-- C2: whenever the classifier call, the synthesizer call, the storage
upload or the URL signing fails, the handler returns status 500 with
the body error equal to the string `Failed to analyze outfit image`
and nothing else, and the original error message goes to the log. -/
theorem stageFailure_500 (env : Env) (f : UploadedFile) (hf : env.file = some f)
    (hs : ¬ fileSizeLimit < f.size) :
    (∀ e, env.classifier = .error e →
      handle env = (⟨500, .failure "Failed to analyze outfit image"⟩,
        ⟨true, false, [], [], [e]⟩)) ∧
    (∀ obj e, env.classifier = .ok obj → env.synthesizer = .error e →
      handle env = (⟨500, .failure "Failed to analyze outfit image"⟩,
        ⟨true, true, [], [], [e]⟩)) ∧
    (∀ obj gen g bytes e, env.classifier = .ok obj → env.synthesizer = .ok gen →
      firstImageFile gen = some g → g.uint8Array = some bytes →
      env.uploadResult = .error e →
      handle env = (⟨500, .failure "Failed to analyze outfit image"⟩,
        ⟨true, true, [(storageKey env.now obj.category, bytes)], [], [e]⟩)) ∧
    (∀ obj gen g bytes e, env.classifier = .ok obj → env.synthesizer = .ok gen →
      firstImageFile gen = some g → g.uint8Array = some bytes →
      env.uploadResult = .ok () → env.signedUrl = .error e →
      handle env = (⟨500, .failure "Failed to analyze outfit image"⟩,
        ⟨true, true, [(storageKey env.now obj.category, bytes)],
          [storageKey env.now obj.category], [e]⟩)) := by
  refine ⟨?_, ?_, ?_, ?_⟩
  · intro e hc
    simp [handle, hf, hs, hc]
  · intro obj e hc hsyn
    simp [handle, hf, hs, hc, hsyn]
  · intro obj gen g bytes e hc hsyn hfi hb hu
    simp [handle, hf, hs, hc, hsyn, hfi, hb, hu]
  · intro obj gen g bytes e hc hsyn hfi hb hu hsu
    simp [handle, hf, hs, hc, hsyn, hfi, hb, hu, hsu]

/-- Environment of a request whose classifier call fails. -/
def envClsFail : Env :=
  { file := some ⟨"outfit.jpg", 3⟩
    classifier := .error "model unavailable"
    synthesizer := .ok ⟨none⟩
    uploadResult := .ok ()
    signedUrl := .ok "u"
    now := 7 }

/-- Witness for C2 at a concrete environment with a failing classifier. -/
theorem stageFailure_500_witness :
    handle envClsFail = (⟨500, .failure "Failed to analyze outfit image"⟩,
      ⟨true, false, [], [], ["model unavailable"]⟩) :=
  (stageFailure_500 envClsFail ⟨"outfit.jpg", 3⟩ rfl (by decide)).1 "model unavailable" rfl

/-- C5: when classification and synthesis both succeed but the returned
file list holds no asset whose media type starts with `image/`, the
response is still 200 with an empty suggestion URL, and neither storage
operation is invoked. -/
theorem noImageAsset_degrade (env : Env) (f : UploadedFile) (obj : Analysis)
    (gen : GenerationResult) (hf : env.file = some f) (hs : ¬ fileSizeLimit < f.size)
    (hc : env.classifier = .ok obj) (hg : env.synthesizer = .ok gen)
    (hnone : ∀ g ∈ gen.files.getD [], isImageFile g = false) :
    handle env =
      (⟨200, .success obj.category.name obj.explanation obj.confidence ""⟩,
       ⟨true, true, [], [], []⟩) := by
  have hfi : firstImageFile gen = none := by
    unfold firstImageFile
    cases hfs : gen.files with
    | none => rfl
    | some fs =>
      have : fs.find? (fun g => isImageFile g) = none := by
        rw [List.find?_eq_none]
        intro g hg'
        simp [hnone g (by simp [hfs, hg'])]
      simp [this]
  simp [handle, hf, hs, hc, hg, hfi]

/-- Environment where the synthesizer returns only a non-image asset. -/
def envNoImage : Env :=
  { file := some ⟨"outfit.jpg", 3⟩
    classifier := .ok ⟨.Chill, "Cozy loungewear.", "Medium"⟩
    synthesizer := .ok ⟨some [⟨some "text/plain", some [9]⟩]⟩
    uploadResult := .ok ()
    signedUrl := .ok "u"
    now := 7 }

/-- Witness for C5 at a concrete environment without an image asset. -/
theorem noImageAsset_degrade_witness :
    handle envNoImage =
      (⟨200, .success "Chill" "Cozy loungewear." "Medium" ""⟩,
       ⟨true, true, [], [], []⟩) :=
  noImageAsset_degrade envNoImage ⟨"outfit.jpg", 3⟩ ⟨.Chill, "Cozy loungewear.", "Medium"⟩
    ⟨some [⟨some "text/plain", some [9]⟩]⟩ rfl (by decide) rfl rfl (by decide)

/-- Environment where the first image-typed asset has bytes but a later
image-typed asset has none. -/
def envLaterEmptyImage : Env :=
  { file := some ⟨"a.jpg", 10⟩
    classifier := .ok ⟨.Casual, "Jeans and a tee.", "High"⟩
    synthesizer := .ok ⟨some [⟨some "image/png", some [7]⟩, ⟨some "image/png", none⟩]⟩
    uploadResult := .ok ()
    signedUrl := .ok "https://signed.example/x"
    now := 42 }

/-- Counterexample to C10 as stated: this file list does contain an
image-typed asset with an absent byte payload, yet the handler performs
a storage upload and returns a nonempty suggestion URL, because the
scan only inspects the first image-typed asset. -/
theorem containsEmptyImage_still_uploads :
    (∃ g ∈ [GeneratedFile.mk (some "image/png") (some [7]),
            GeneratedFile.mk (some "image/png") none],
        isImageFile g = true ∧ g.uint8Array = none) ∧
    envLaterEmptyImage.synthesizer =
      .ok ⟨some [⟨some "image/png", some [7]⟩, ⟨some "image/png", none⟩]⟩ ∧
    (handle envLaterEmptyImage).2.uploads ≠ [] ∧
    (handle envLaterEmptyImage).1 =
      ⟨200, .success "Casual" "Jeans and a tee." "High" "https://signed.example/x"⟩ := by
  refine ⟨⟨⟨some "image/png", none⟩, by simp, by decide, rfl⟩, rfl, by decide, rfl⟩

/-- C10 amended: when the first image-typed asset of the returned file
list has an absent byte payload, the handler skips both storage
operations and returns 200 with an empty suggestion URL. -/
theorem firstImageNoBytes_degrade (env : Env) (f : UploadedFile) (obj : Analysis)
    (gen : GenerationResult) (g : GeneratedFile) (hf : env.file = some f)
    (hs : ¬ fileSizeLimit < f.size) (hc : env.classifier = .ok obj)
    (hg : env.synthesizer = .ok gen) (hfi : firstImageFile gen = some g)
    (hb : g.uint8Array = none) :
    handle env =
      (⟨200, .success obj.category.name obj.explanation obj.confidence ""⟩,
       ⟨true, true, [], [], []⟩) := by
  simp [handle, hf, hs, hc, hg, hfi, hb]

/-- Environment where the only image-typed asset lacks its bytes. -/
def envEmptyImage : Env :=
  { file := some ⟨"a.jpg", 10⟩
    classifier := .ok ⟨.Sport, "Gym clothes.", "High"⟩
    synthesizer := .ok ⟨some [⟨some "image/png", none⟩]⟩
    uploadResult := .ok ()
    signedUrl := .ok "u"
    now := 42 }

/-- Witness for the amended C10 at a concrete environment. -/
theorem firstImageNoBytes_degrade_witness :
    handle envEmptyImage =
      (⟨200, .success "Sport" "Gym clothes." "High" ""⟩,
       ⟨true, true, [], [], []⟩) :=
  firstImageNoBytes_degrade envEmptyImage ⟨"a.jpg", 10⟩ ⟨.Sport, "Gym clothes.", "High"⟩
    ⟨some [⟨some "image/png", none⟩]⟩ ⟨some "image/png", none⟩ rfl (by decide) rfl rfl
    (by decide) rfl

/-- A fully successful environment with the uploaded filename left to
vary, used to examine whether the server reacts to the filename. -/
def envNamed (name : String) : Env :=
  { file := some ⟨name, 5⟩
    classifier := .ok ⟨.Professional, "A suit.", "High"⟩
    synthesizer := .ok ⟨some [⟨some "image/png", some [1]⟩]⟩
    uploadResult := .ok ()
    signedUrl := .ok "https://example.com/s.png"
    now := 3 }

/-- Counterexample to C7 as stated: the server-side handler behaves
identically for a filename with a recognized extension and for one
without, even though the claimed derivation distinguishes them; the
extension-based MIME derivation lives in the client, not in the
server-side intake stage. -/
theorem server_no_mime_derivation :
    derivedMimeType "outfit.png" ≠ derivedMimeType "outfit" ∧
    handle (envNamed "outfit.png") = handle (envNamed "outfit") :=
  ⟨by decide, rfl⟩

/-- `takeWhile` returns exactly a leading block of satisfying elements
when the element right after the block fails the predicate. -/
theorem takeWhile_append_cons {p : Char → Bool} (xs : List Char) (c : Char)
    (ys : List Char) (hxs : ∀ a ∈ xs, p a = true) (hc : p c = false) :
    (xs ++ c :: ys).takeWhile p = xs := by
  induction xs with
  | nil => simp [List.takeWhile_cons, hc]
  | cons a as ih =>
    have ha : p a = true := hxs a (by simp)
    simp only [List.cons_append, List.takeWhile_cons, ha, if_true]
    rw [ih (fun b hb => hxs b (by simp [hb]))]

/-- On a reversed filename shaped as a reversed extension, a dot and a
rest, the extension search finds exactly that extension. -/
theorem extFromRev_found (l rest : List Char) (hne : l ≠ [])
    (hw : ∀ a ∈ l, wordChar a = true) :
    extFromRev (l.reverse ++ '.' :: rest) = some (String.mk l) := by
  have hsuf : (l.reverse ++ '.' :: rest).takeWhile wordChar = l.reverse :=
    takeWhile_append_cons _ _ _ (fun a ha => hw a (List.mem_reverse.mp ha)) (by decide)
  have hemp : l.reverse.isEmpty = false :=
    List.isEmpty_eq_false.mpr (List.reverse_ne_nil_iff.mpr hne)
  simp [extFromRev, hsuf, List.drop_left, hemp]

/-- Whatever the extension search returns decomposes the filename into
a prefix, a dot, and that extension, which is nonempty and made of
word characters only. -/
theorem extensionOf_decomposition (fn ext : String) (h : extensionOf fn = some ext) :
    ext.data ≠ [] ∧ (∀ a ∈ ext.data, wordChar a = true) ∧
      ∃ p : String, fn = p ++ "." ++ ext := by
  simp only [extensionOf, extFromRev] at h
  obtain ⟨t, ht⟩ := @List.takeWhile_prefix _ fn.data.reverse wordChar
  split at h
  · rename_i c cs heq
    split at h
    · rename_i hdot
      split at h
      · exact absurd h (by simp)
      · rename_i hemp
        have hmk : String.mk ((fn.data.reverse.takeWhile wordChar).reverse) = ext :=
          Option.some.inj h
        subst hmk
        have hsufne : fn.data.reverse.takeWhile wordChar ≠ [] := by
          intro hnil
          exact hemp (by simp [hnil])
        refine ⟨?_, ?_, ?_⟩
        · exact List.reverse_ne_nil_iff.mpr hsufne
        · intro a ha
          exact List.mem_takeWhile_imp (List.mem_reverse.mp ha)
        · have hteq : t = c :: cs := by
            have hdrop : (fn.data.reverse.takeWhile wordChar ++ t).drop
                (fn.data.reverse.takeWhile wordChar).length = t := List.drop_left _ _
            rw [ht, heq] at hdrop
            exact hdrop.symm
          have hrev : fn.data.reverse =
              fn.data.reverse.takeWhile wordChar ++ c :: cs := by
            conv_lhs => rw [← ht]
            rw [hteq]
          have h1 : fn.data = (fn.data.reverse.takeWhile wordChar ++ c :: cs).reverse := by
            rw [← hrev, List.reverse_reverse]
          refine ⟨String.mk cs.reverse, String.ext ?_⟩
          show fn.data = cs.reverse ++ ['.'] ++ (fn.data.reverse.takeWhile wordChar).reverse
          conv_lhs => rw [h1]
          rw [hdot]
          simp
    · exact absurd h (by simp)
  · exact absurd h (by simp)

/-- C7 amended: the best-effort MIME derivation from the filename
extension — `image/` plus the extension when one is recognized,
`image/jpeg` otherwise — happens on the client when it builds the
upload form data; the server-side handler behaves identically whatever
the uploaded filename is. -/
theorem mime_derived_client_side :
    (∀ p ext : String, ext.data ≠ [] → (∀ a ∈ ext.data, wordChar a = true) →
        derivedMimeType (p ++ "." ++ ext) = "image/" ++ ext) ∧
    (∀ fn : String, extensionOf fn = none → derivedMimeType fn = "image/jpeg") ∧
    (∀ fn ext : String, extensionOf fn = some ext →
        ext.data ≠ [] ∧ (∀ a ∈ ext.data, wordChar a = true) ∧
          ∃ p : String, fn = p ++ "." ++ ext) ∧
    (∀ (env : Env) (n₁ n₂ : String) (sz : Nat),
        handle { env with file := some ⟨n₁, sz⟩ } =
          handle { env with file := some ⟨n₂, sz⟩ }) := by
  refine ⟨?_, ?_, extensionOf_decomposition, ?_⟩
  · intro p ext hne hw
    have hr : (p ++ "." ++ ext).data.reverse = ext.data.reverse ++ '.' :: p.data.reverse := by
      show ((p.data ++ ['.']) ++ ext.data).reverse = _
      simp
    have hfound := extFromRev_found ext.data p.data.reverse hne hw
    simp [derivedMimeType, extensionOf, hr, hfound]
  · intro fn hE
    simp [derivedMimeType, hE]
  · intro env n₁ n₂ sz
    rfl

/-- Witness for the amended C7 at concrete filenames. -/
theorem mime_derived_client_side_witness :
    derivedMimeType ("outfit" ++ "." ++ "png") = "image/" ++ "png" ∧
    derivedMimeType "outfit" = "image/jpeg" ∧
    ("png" : String).data ≠ [] ∧
    (∃ p : String, "photo.png" = p ++ "." ++ "png") ∧
    handle { envNamed "q" with file := some ⟨"a.png", 5⟩ } =
      handle { envNamed "q" with file := some ⟨"b", 5⟩ } :=
  ⟨mime_derived_client_side.1 "outfit" "png" (by decide) (by decide),
   mime_derived_client_side.2.1 "outfit" (by decide),
   (mime_derived_client_side.2.2.1 "photo.png" "png" (by decide)).1,
   (mime_derived_client_side.2.2.1 "photo.png" "png" (by decide)).2.2,
   mime_derived_client_side.2.2.2 (envNamed "q") "a.png" "b" 5⟩

end OutfitApp
